import Mathlib

/-!
Verification of the KML viewer's core analysis pipeline (src/src/App.tsx):
the Summary Builder (`showSummary`), Detail Builder (`showDetails`),
Distance Engine (`calculateDistance`) and Envelope Builder (the effect of
`MapUpdater`).  JavaScript numbers are modelled as an extended-real type
`JNum` (a real number, NaN, or a signed infinity); arbitrary JavaScript
values occurring as coordinate components are modelled by `JVal`, which
records only whether the value is a number (everything the source code
inspects about them via `typeof`).
-/

/-- A JavaScript `number`: an IEEE-754 double idealized as a real number,
or `NaN`, or one of the two infinities.  Rounding is not modelled; the
special values and their propagation rules are. -/
inductive JNum where
  | finite (x : ℝ)
  | nan
  | posInf
  | negInf

/-- A JavaScript value appearing as a coordinate component.  The source
only ever asks `typeof v === "number"` about such values, so non-number
values (strings, `undefined`, `null`, objects) are collapsed into `other`. -/
inductive JVal where
  | num (n : JNum)
  | other

/-- `typeof v === "number"` — true for `NaN` and the infinities as well. -/
def JVal.isNumber : JVal → Bool
  | .num _ => true
  | .other => false

/-- Both components finite: the spec's notion of a "usable" numeric value. -/
def JVal.isFiniteNum : JVal → Bool
  | .num (.finite _) => true
  | _ => false

/-- JavaScript `+` on numbers (IEEE-754 special-value rules). -/
def JNum.add : JNum → JNum → JNum
  | .nan, _ => .nan
  | _, .nan => .nan
  | .finite a, .finite b => .finite (a + b)
  | .posInf, .negInf => .nan
  | .negInf, .posInf => .nan
  | .posInf, _ => .posInf
  | _, .posInf => .posInf
  | .negInf, _ => .negInf
  | _, .negInf => .negInf

/-- JavaScript `-` on numbers (IEEE-754 special-value rules). -/
def JNum.sub : JNum → JNum → JNum
  | .nan, _ => .nan
  | _, .nan => .nan
  | .finite a, .finite b => .finite (a - b)
  | .posInf, .posInf => .nan
  | .negInf, .negInf => .nan
  | .posInf, _ => .posInf
  | .negInf, _ => .negInf
  | .finite _, .posInf => .negInf
  | .finite _, .negInf => .posInf

/-- JavaScript `*` on numbers (IEEE-754: `0 * ±∞ = NaN`, signs otherwise). -/
noncomputable def JNum.mul : JNum → JNum → JNum
  | .nan, _ => .nan
  | _, .nan => .nan
  | .finite a, .finite b => .finite (a * b)
  | .finite a, .posInf => if 0 < a then .posInf else if a < 0 then .negInf else .nan
  | .posInf, .finite b => if 0 < b then .posInf else if b < 0 then .negInf else .nan
  | .finite a, .negInf => if 0 < a then .negInf else if a < 0 then .posInf else .nan
  | .negInf, .finite b => if 0 < b then .negInf else if b < 0 then .posInf else .nan
  | .posInf, .posInf => .posInf
  | .posInf, .negInf => .negInf
  | .negInf, .posInf => .negInf
  | .negInf, .negInf => .posInf

/-- JavaScript `/` on numbers (IEEE-754; the sign of zero is not modelled,
division of a nonzero finite value by zero yields `+∞` or `-∞` by the
numerator's sign, `0/0` and `∞/∞` yield `NaN`). -/
noncomputable def JNum.div : JNum → JNum → JNum
  | .nan, _ => .nan
  | _, .nan => .nan
  | .finite a, .finite b =>
      if b = 0 then (if 0 < a then .posInf else if a < 0 then .negInf else .nan)
      else .finite (a / b)
  | .finite _, .posInf => .finite 0
  | .finite _, .negInf => .finite 0
  | .posInf, .finite b => if b < 0 then .negInf else .posInf
  | .negInf, .finite b => if b < 0 then .posInf else .negInf
  | .posInf, _ => .nan
  | .negInf, _ => .nan

/-- `Math.sin`: `NaN` on non-finite input. -/
noncomputable def JNum.sin : JNum → JNum
  | .finite x => .finite (Real.sin x)
  | _ => .nan

/-- `Math.cos`: `NaN` on non-finite input. -/
noncomputable def JNum.cos : JNum → JNum
  | .finite x => .finite (Real.cos x)
  | _ => .nan

/-- `Math.sqrt`: `NaN` on negative or `NaN` input, `+∞` at `+∞`. -/
noncomputable def JNum.sqrt : JNum → JNum
  | .finite x => if x < 0 then .nan else .finite (Real.sqrt x)
  | .posInf => .posInf
  | _ => .nan

/-- Real-valued `atan2` (the IEEE/JavaScript convention for finite
arguments): the angle of the point `(x, y)`. -/
noncomputable def atan2R (y x : ℝ) : ℝ :=
  if 0 < x then Real.arctan (y / x)
  else if x < 0 then
    (if 0 ≤ y then Real.arctan (y / x) + Real.pi else Real.arctan (y / x) - Real.pi)
  else
    (if 0 < y then Real.pi / 2 else if y < 0 then -(Real.pi / 2) else 0)

/-- `Math.atan2` on JavaScript numbers: `NaN` if either argument is `NaN`,
the IEEE limit values at infinities, `atan2R` on finite arguments. -/
noncomputable def JNum.atan2 : JNum → JNum → JNum
  | .nan, _ => .nan
  | _, .nan => .nan
  | .finite y, .finite x => .finite (atan2R y x)
  | .posInf, .finite _ => .finite (Real.pi / 2)
  | .negInf, .finite _ => .finite (-(Real.pi / 2))
  | .finite _, .posInf => .finite 0
  | .finite y, .negInf => .finite (if 0 ≤ y then Real.pi else -Real.pi)
  | .posInf, .posInf => .finite (Real.pi / 4)
  | .posInf, .negInf => .finite (3 * Real.pi / 4)
  | .negInf, .posInf => .finite (-(Real.pi / 4))
  | .negInf, .negInf => .finite (-(3 * Real.pi / 4))

/-- The haversine intermediate `a` of `calculateDistance` (App.tsx lines
197-205), over ideal reals:
`a = sin(dLat/2)·sin(dLat/2) + cos(lat1·π/180)·cos(lat2·π/180)·sin(dLon/2)·sin(dLon/2)`
with `dLat = (lat2-lat1)·π/180`, `dLon = (lon2-lon1)·π/180`. -/
noncomputable def haversineA (lat1 lon1 lat2 lon2 : ℝ) : ℝ :=
  Real.sin ((lat2 - lat1) * Real.pi / 180 / 2) * Real.sin ((lat2 - lat1) * Real.pi / 180 / 2) +
    Real.cos (lat1 * Real.pi / 180) * Real.cos (lat2 * Real.pi / 180) *
      Real.sin ((lon2 - lon1) * Real.pi / 180 / 2) *
      Real.sin ((lon2 - lon1) * Real.pi / 180 / 2)

/-- The Distance Engine `calculateDistance` (App.tsx lines 191-208) over
ideal reals: `R·c` with `R = 6371`, `c = 2·atan2(√a, √(1-a))`. -/
noncomputable def calculateDistance (lat1 lon1 lat2 lon2 : ℝ) : ℝ :=
  6371 * (2 * atan2R (Real.sqrt (haversineA lat1 lon1 lat2 lon2))
    (Real.sqrt (1 - haversineA lat1 lon1 lat2 lon2)))

/-- `calculateDistance` as executed on JavaScript numbers, mirroring
App.tsx lines 191-208 operation by operation (so that its behaviour on
`NaN`/infinite inputs is captured). -/
noncomputable def calculateDistanceJS (lat1 lon1 lat2 lon2 : JNum) : JNum :=
  let dLat := JNum.div (JNum.mul (JNum.sub lat2 lat1) (.finite Real.pi)) (.finite 180)
  let dLon := JNum.div (JNum.mul (JNum.sub lon2 lon1) (.finite Real.pi)) (.finite 180)
  let a :=
    JNum.add
      (JNum.mul (JNum.sin (JNum.div dLat (.finite 2))) (JNum.sin (JNum.div dLat (.finite 2))))
      (JNum.mul
        (JNum.mul
          (JNum.mul (JNum.cos (JNum.div (JNum.mul lat1 (.finite Real.pi)) (.finite 180)))
            (JNum.cos (JNum.div (JNum.mul lat2 (.finite Real.pi)) (.finite 180))))
          (JNum.sin (JNum.div dLon (.finite 2))))
        (JNum.sin (JNum.div dLon (.finite 2))))
  let c := JNum.mul (.finite 2) (JNum.atan2 (JNum.sqrt a) (JNum.sqrt (JNum.sub (.finite 1) a)))
  JNum.mul (.finite 6371) c

/-- A GeoJSON geometry as the source consumes it: the `type` string
determines how the `coordinates` payload is interpreted, so the payload is
attached to the corresponding tag.  `unknown tag` covers every other
`type` string (`"MultiPolygon"`, `"GeometryCollection"`, `""`, ...). -/
inductive Geometry where
  | point (coords : List JVal)
  | lineString (coords : List (List JVal))
  | polygon (coords : List (List (List JVal)))
  | multiLineString (coords : List (List (List JVal)))
  | unknown (tag : String)

/-- The `type` string of a geometry (`feature.geometry.type`). -/
def Geometry.type : Geometry → String
  | .point _ => "Point"
  | .lineString _ => "LineString"
  | .polygon _ => "Polygon"
  | .multiLineString _ => "MultiLineString"
  | .unknown tag => tag

/-- A GeoJSON feature as the source consumes it: an optional geometry and
the optional `properties.name` string. -/
structure Feature where
  geometry : Option Geometry
  name : Option String

/-- Array indexing `l[i]`: out-of-range access yields `undefined`, which is
a non-number, i.e. `JVal.other`. -/
def jget (l : List JVal) (i : Nat) : JVal :=
  l.getD i JVal.other

/-- The initial `elementCount` object of `showSummary` (App.tsx lines
118-123): the four recognized kinds, zero-filled, in declaration order. -/
def initCount : List (String × Nat) :=
  [("Point", 0), ("LineString", 0), ("Polygon", 0), ("MultiLineString", 0)]

/-- `elementCount[type] = (elementCount[type] || 0) + 1` on a JavaScript
object modelled as an ordered association list: the existing entry for the
key is incremented in place; an absent key is appended at the end with
count 1. -/
def bump : List (String × Nat) → String → List (String × Nat)
  | [], k => [(k, 1)]
  | p :: rest, k => if p.1 = k then (p.1, p.2 + 1) :: rest else p :: bump rest k

/-- The body of `showSummary`'s `forEach` (App.tsx lines 125-130): bump the
bucket of the geometry's `type` whenever the feature has a geometry and its
`type` string is truthy (non-empty). -/
def summaryStep (acc : List (String × Nat)) (f : Feature) : List (String × Nat) :=
  match f.geometry with
  | some g => if g.type = "" then acc else bump acc g.type
  | none => acc

/-- The Summary Builder `showSummary` (App.tsx lines 115-134), as the
mapping it produces. -/
def showSummary (features : List Feature) : List (String × Nat) :=
  features.foldl summaryStep initCount

/-- Sum of the counts of a summary mapping. -/
def sumValues (l : List (String × Nat)) : Nat :=
  (l.map Prod.snd).sum

/-- Key membership in a summary mapping. -/
def hasKey (l : List (String × Nat)) (k : String) : Bool :=
  l.any (fun p => p.1 = k)

/-- Modelled from the spec: the number of features with a non-null geometry
whose kind is one of the four recognized kinds (`Point`, `LineString`,
`Polygon`, `MultiLineString`).  Comparison definition for the Summary
claim; the source has no such counter. -/
def specRecognizedCount (features : List Feature) : Nat :=
  features.countP (fun f =>
    match f.geometry with
    | some g =>
        (["Point", "LineString", "Polygon", "MultiLineString"] : List String).contains g.type
    | none => false)

/-- The number of features with a geometry whose `type` string is truthy
(non-empty) — exactly the features `showSummary` counts. -/
def truthyGeomCount (features : List Feature) : Nat :=
  features.countP (fun f =>
    match f.geometry with
    | some g => !(g.type = "")
    | none => false)

/-- The per-segment usability check of `showDetails` (App.tsx lines
159-169), as the positive condition: both coordinate arrays have at least
2 components and all four inspected components are of number type (the
`!coord1`/`!coord2` guards cannot fire for in-range array elements). -/
def segUsable (c1 c2 : List JVal) : Bool :=
  !(c1.length < 2) && !(c2.length < 2) &&
    (jget c1 0).isNumber && (jget c1 1).isNumber &&
    (jget c2 0).isNumber && (jget c2 1).isNumber

/-- Numeric value of a coordinate component once the `typeof` check has
passed (non-numbers never reach arithmetic in the source; they are mapped
to `NaN`, which is what JavaScript arithmetic on them would yield). -/
def JVal.toNum : JVal → JNum
  | .num n => n
  | .other => .nan

/-- `calculateDistance(coord1[1], coord1[0], coord2[1], coord2[0])`
(App.tsx lines 171-176). -/
noncomputable def jdist (c1 c2 : List JVal) : JNum :=
  calculateDistanceJS (jget c1 1).toNum (jget c1 0).toNum (jget c2 1).toNum (jget c2 0).toNum

/-- The consecutive pairs `(coordinates[i], coordinates[i+1])` for
`i = 0 .. length-2`, visited by the `for` loop of App.tsx line 155. -/
def consecPairs {α : Type} : List α → List (α × α)
  | a :: b :: rest => (a, b) :: consecPairs (b :: rest)
  | _ => []

/-- One iteration of the length loop (App.tsx lines 155-177): add the
segment's distance if the usability check passes, else leave the
accumulator unchanged (`continue`). -/
noncomputable def segStep (acc : JNum) (p : List JVal × List JVal) : JNum :=
  if segUsable p.1 p.2 then JNum.add acc (jdist p.1 p.2) else acc

/-- The accumulated `length` after the loop, starting from `0`. -/
noncomputable def accumLength (cs : List (List JVal)) : JNum :=
  (consecPairs cs).foldl segStep (.finite 0)

/-- A detail-table row (the source's `DetailItem`); its `length` field is
kept as the accumulated number (the source formats it with `toFixed(2)`,
a decimal-presentation step outside the numeric model). -/
structure DetailItem where
  type : String
  length : JNum
  name : String

/-- `feature.properties.name || "Unnamed"` (App.tsx line 182): the fallback
fires for any falsy name, i.e. for an absent name and for `""`. -/
def displayName : Option String → String
  | some s => if s = "" then "Unnamed" else s
  | none => "Unnamed"

/-- The flattened coordinate sequence used by `showDetails` (App.tsx lines
148-151): `LineString` coordinates directly, `MultiLineString` coordinates
flattened one level by `flat(1)`; other kinds never reach this step. -/
def normCoords : Geometry → List (List JVal)
  | .lineString cs => cs
  | .multiLineString ls => ls.flatten
  | _ => []

/-- The body of `showDetails`'s `forEach` for one feature (App.tsx lines
141-185): `none` when no row is pushed. -/
noncomputable def detailOf (f : Feature) : Option DetailItem :=
  match f.geometry with
  | none => none
  | some g =>
    match g with
    | .lineString cs =>
        if cs.length < 2 then none
        else some ⟨"LineString", accumLength cs, displayName f.name⟩
    | .multiLineString ls =>
        if (ls.flatten).length < 2 then none
        else some ⟨"MultiLineString", accumLength ls.flatten, displayName f.name⟩
    | _ => none

/-- One `forEach` iteration of `showDetails`: push the feature's row, if any. -/
noncomputable def detailStep (acc : List DetailItem) (f : Feature) : List DetailItem :=
  match detailOf f with
  | some d => acc ++ [d]
  | none => acc

/-- The Detail Builder `showDetails` (App.tsx lines 136-189), as the row
list it produces. -/
noncomputable def showDetails (features : List Feature) : List DetailItem :=
  features.foldl detailStep []

/-- Whether a feature's geometry is non-null and line-shaped. -/
def isLineFeature (f : Feature) : Bool :=
  match f.geometry with
  | some (.lineString _) => true
  | some (.multiLineString _) => true
  | _ => false

/-- One coordinate pair of the Envelope Builder (`MapUpdater`, App.tsx
lines 47-70): destructure `[lon, lat]`, and extend the bounds with
`[lat, lon]` iff both are of number type.  `bounds.extend` is modelled as
recording the extended `(lat, lon)` pairs in order. -/
def coordFold (coord : List JVal) : List (JNum × JNum) :=
  match jget coord 0, jget coord 1 with
  | .num lon, .num lat => [(lat, lon)]
  | _, _ => []

/-- The pairs folded into the bounds for one feature (`MapUpdater`'s
type dispatch, App.tsx lines 44-73): `Point` folds its single pair,
`LineString` each coordinate, `MultiLineString` each coordinate of each
line; all other geometries (including `Polygon`) fold nothing. -/
def featureFolds (f : Feature) : List (JNum × JNum) :=
  match f.geometry with
  | none => []
  | some g =>
    match g with
    | .point c => coordFold c
    | .lineString cs => cs.foldl (fun acc c => acc ++ coordFold c) []
    | .multiLineString ls =>
        ls.foldl (fun acc line => acc ++ line.foldl (fun a c => a ++ coordFold c) []) []
    | _ => []

/-- All pairs folded into the bounds over the collection. -/
def envelopeFolds (features : List Feature) : List (JNum × JNum) :=
  features.foldl (fun acc f => acc ++ featureFolds f) []

/-- Whether `MapUpdater` fits the viewport (App.tsx lines 40 and 75):
the collection is non-empty, `hasValidBounds` was set and the bounds are
valid — the latter two both hold exactly when at least one pair was
extended into the bounds.  `false` is the "invalid envelope" outcome. -/
def fitPerformed (features : List Feature) : Bool :=
  decide (0 < features.length) && !(envelopeFolds features).isEmpty

/-- Modelled from the spec: a coordinate pair is "usable"/valid only if
both components are finite numeric values.  Comparison definition for the
Envelope claims; the source checks only `typeof`. -/
def specUsablePair (coord : List JVal) : Bool :=
  (jget coord 0).isFiniteNum && (jget coord 1).isFiniteNum

/-- Concrete input: a `LineString` whose pairs are `[NaN, NaN]`. -/
def cNaN : List JVal := [.num .nan, .num .nan]

/-- Concrete input: the degenerate single-point line `[[2, 1]]`. -/
def lineTwoOne : Geometry := .lineString [[.num (.finite 2), .num (.finite 1)]]

/-- Concrete input: the spec's `MultiLineString` example with sub-lines
`[[[0,0],[0,1]], [[0,1],[0,2]]]` (coordinate order is `[lon, lat]`). -/
def mlsLines : List (List (List JVal)) :=
  [[[.num (.finite 0), .num (.finite 0)], [.num (.finite 0), .num (.finite 1)]],
   [[.num (.finite 0), .num (.finite 1)], [.num (.finite 0), .num (.finite 2)]]]

theorem sumValues_cons (p : String × Nat) (l : List (String × Nat)) :
    sumValues (p :: l) = p.2 + sumValues l := by
  simp [sumValues]

theorem sumValues_bump (l : List (String × Nat)) (k : String) :
    sumValues (bump l k) = sumValues l + 1 := by
  induction l with
  | nil => simp [bump, sumValues]
  | cons p rest ih =>
    by_cases h : p.1 = k
    · rw [bump, if_pos h, sumValues_cons, sumValues_cons]
      omega
    · rw [bump, if_neg h, sumValues_cons, sumValues_cons, ih]
      omega

theorem hasKey_bump (l : List (String × Nat)) (k k' : String) (h : hasKey l k' = true) :
    hasKey (bump l k) k' = true := by
  induction l with
  | nil => simp [hasKey] at h
  | cons p rest ih =>
    by_cases hp : p.1 = k
    · rw [bump, if_pos hp]
      simpa [hasKey] using h
    · rw [bump, if_neg hp]
      simp [hasKey] at h ⊢
      rcases h with h | h
      · exact Or.inl h
      · exact Or.inr (by simpa [hasKey] using ih (by simpa [hasKey] using h))

theorem sumValues_foldl (features : List Feature) :
    ∀ acc : List (String × Nat),
      sumValues (features.foldl summaryStep acc) = sumValues acc + truthyGeomCount features := by
  induction features with
  | nil => intro acc; simp [truthyGeomCount]
  | cons f rest ih =>
    intro acc
    rw [List.foldl_cons, ih]
    cases hg : f.geometry with
    | none => simp [summaryStep, hg, truthyGeomCount, List.countP_cons]
    | some g =>
      by_cases ht : g.type = ""
      · simp [summaryStep, hg, ht, truthyGeomCount, List.countP_cons]
      · simp [summaryStep, hg, ht, truthyGeomCount, List.countP_cons, sumValues_bump]
        omega

theorem hasKey_foldl (features : List Feature) :
    ∀ (acc : List (String × Nat)) (k : String), hasKey acc k = true →
      hasKey (features.foldl summaryStep acc) k = true := by
  induction features with
  | nil => intro acc k h; simpa using h
  | cons f rest ih =>
    intro acc k h
    rw [List.foldl_cons]
    apply ih
    cases hg : f.geometry with
    | none =>
      have e : summaryStep acc f = acc := by simp [summaryStep, hg]
      rw [e]; exact h
    | some g =>
      by_cases ht : g.type = ""
      · have e : summaryStep acc f = acc := by simp [summaryStep, hg, ht]
        rw [e]; exact h
      · have e : summaryStep acc f = bump acc g.type := by simp [summaryStep, hg, ht]
        rw [e]
        exact hasKey_bump _ _ _ h

/-- C1 (amended): the values of the Summary sum to the number of features
with a non-null geometry whose kind string is truthy (non-empty) —
recognized or not — and the four fixed keys are always present
(unrecognized kinds are counted under extra keys of their own). -/
theorem summary_sum_and_fixed_keys (features : List Feature) :
    sumValues (showSummary features) = truthyGeomCount features ∧
    hasKey (showSummary features) "Point" = true ∧
    hasKey (showSummary features) "LineString" = true ∧
    hasKey (showSummary features) "Polygon" = true ∧
    hasKey (showSummary features) "MultiLineString" = true := by
  refine ⟨?_, ?_, ?_, ?_, ?_⟩
  · rw [showSummary, sumValues_foldl]
    simp [sumValues, initCount]
  · exact hasKey_foldl _ _ _ rfl
  · exact hasKey_foldl _ _ _ rfl
  · exact hasKey_foldl _ _ _ rfl
  · exact hasKey_foldl _ _ _ rfl

/-- C1 counterexample: a single feature with the unrecognized geometry kind
`"MultiPolygon"` is counted — the Summary gains a fifth key with count 1,
so its values sum to 1 although no feature has one of the four recognized
kinds, and the mapping does not consist of exactly the 4 fixed keys. -/
theorem summary_unknown_kind_counted :
    showSummary [⟨some (.unknown "MultiPolygon"), none⟩] =
      [("Point", 0), ("LineString", 0), ("Polygon", 0), ("MultiLineString", 0),
        ("MultiPolygon", 1)] ∧
    sumValues (showSummary [⟨some (.unknown "MultiPolygon"), none⟩]) = 1 ∧
    specRecognizedCount [⟨some (.unknown "MultiPolygon"), none⟩] = 0 := by
  exact ⟨by decide, by decide, by decide⟩

/-- C9 (amended): the Envelope Builder reports "invalid" (performs no
viewport fit) exactly when zero coordinate pairs passed its numeric-type
check — a check that `NaN` and infinite components also pass, so a
collection whose coordinates are all non-finite numbers yields a *valid*
envelope; an empty collection still yields "invalid". -/
theorem envelope_invalid_iff_no_fold (features : List Feature) :
    fitPerformed features = false ↔ envelopeFolds features = [] := by
  cases features with
  | nil => simp [fitPerformed, envelopeFolds]
  | cons f rest =>
    simp [fitPerformed, List.isEmpty_iff]

/-- C9 counterexample: a collection whose only coordinates are infinite
(hence not "valid" pairs in the spec's sense) still has its pair folded in
and the viewport fit performed — the claimed "invalid" outcome does not
occur. -/
theorem envelope_nonfinite_still_fit :
    fitPerformed [⟨some (.lineString [[.num .posInf, .num .negInf]]), none⟩] = true ∧
    envelopeFolds [⟨some (.lineString [[.num .posInf, .num .negInf]]), none⟩] =
      [(.negInf, .posInf)] ∧
    specUsablePair [.num .posInf, .num .negInf] = false := by
  exact ⟨rfl, rfl, rfl⟩

/-- C2 (amended): a coordinate pair is skipped only when it is truncated
(fewer than 2 components) or a component is not of JavaScript number type;
for such a pair the touching segment contributes nothing to the length
(iteration continues with the rest of the sequence) and the pair is not
folded into the envelope.  `NaN` and infinite components pass the
`typeof` check, so they are *not* skipped: the segment's distance (`NaN`)
is accumulated and the pair is folded. -/
theorem unusable_pair_skipped (c1 c2 : List JVal) (cs : List (List JVal))
    (h : segUsable c1 c2 = false) (coord : List JVal)
    (h2 : ((jget coord 0).isNumber && (jget coord 1).isNumber) = false) :
    accumLength (c1 :: c2 :: cs) = accumLength (c2 :: cs) ∧ coordFold coord = [] := by
  constructor
  · have e : consecPairs (c1 :: c2 :: cs) = (c1, c2) :: consecPairs (c2 :: cs) := rfl
    have hs : segStep (JNum.finite 0) (c1, c2) = JNum.finite 0 := by
      simp [segStep, h]
    rw [accumLength, accumLength, e, List.foldl_cons, hs]
  · cases ha : jget coord 0 with
    | num n =>
      cases hb : jget coord 1 with
      | num m => rw [ha, hb] at h2; simp [JVal.isNumber] at h2
      | other => simp [coordFold, ha, hb]
    | other => cases hb : jget coord 1 <;> simp [coordFold, ha, hb]

/-- Witness for the amended C2 at a concrete input: a truncated pair
`[other]` fails the check, the segment touching it is skipped, and it is
not folded into the envelope. -/
theorem unusable_pair_skipped_witness :
    segUsable [JVal.other] [JVal.other] = false ∧
    ((jget [JVal.other] 0).isNumber && (jget [JVal.other] 1).isNumber) = false ∧
    (accumLength [[JVal.other], [JVal.other]] = accumLength [[JVal.other]] ∧
      coordFold [JVal.other] = []) :=
  ⟨rfl, rfl, unusable_pair_skipped [JVal.other] [JVal.other] [] rfl [JVal.other] rfl⟩

/-- C2 counterexample: a `LineString` whose two pairs are `[NaN, NaN]`:
the claim requires the segment touching them to contribute 0 (length 0),
but the segment passes the `typeof` check and the accumulated length is
`NaN`; likewise an all-infinite pair *is* folded into the envelope. -/
theorem nan_pair_not_skipped :
    showDetails [⟨some (.lineString [cNaN, cNaN]), none⟩] =
      [⟨"LineString", JNum.nan, "Unnamed"⟩] ∧
    JNum.nan ≠ JNum.finite 0 ∧
    envelopeFolds [⟨some (.point [.num .posInf, .num .posInf]), none⟩] =
      [(.posInf, .posInf)] ∧
    specUsablePair cNaN = false := by
  refine ⟨rfl, ?_, rfl, rfl⟩
  intro h
  exact JNum.noConfusion h

theorem detailStep_foldl (l : List Feature) :
    ∀ acc : List DetailItem, l.foldl detailStep acc = acc ++ l.filterMap detailOf := by
  induction l with
  | nil => intro acc; simp
  | cons f rest ih =>
    intro acc
    rw [List.foldl_cons, ih]
    cases hd : detailOf f with
    | some d => simp [detailStep, hd, List.filterMap_cons]
    | none => simp [detailStep, hd, List.filterMap_cons]

/-- C8: the Detail Builder's output lists exactly the per-feature rows in
the order of the input collection (`filterMap`), and a feature can only
yield a row when its geometry is non-null and of kind
`LineString`/`MultiLineString`. -/
theorem details_order_and_scope (features : List Feature) :
    showDetails features = features.filterMap detailOf ∧
    ∀ f : Feature, detailOf f = none ∨ isLineFeature f = true := by
  constructor
  · rw [showDetails, detailStep_foldl]
    simp
  · intro f
    cases hg : f.geometry with
    | none => exact Or.inl (by simp [detailOf, hg])
    | some g =>
      cases g with
      | point c => exact Or.inl (by simp [detailOf, hg])
      | lineString cs => exact Or.inr (by simp [isLineFeature, hg])
      | polygon c => exact Or.inl (by simp [detailOf, hg])
      | multiLineString ls => exact Or.inr (by simp [isLineFeature, hg])
      | unknown t => exact Or.inl (by simp [detailOf, hg])

/-- C7: a line-shaped feature whose flattened coordinate sequence has fewer
than 2 pairs yields no Detail entry. -/
theorem short_line_no_entry (g : Geometry) (name : Option String)
    (hline : isLineFeature ⟨some g, name⟩ = true)
    (hshort : (normCoords g).length < 2) :
    detailOf ⟨some g, name⟩ = none := by
  cases g with
  | point c => rfl
  | polygon c => rfl
  | unknown t => rfl
  | lineString cs =>
    simp only [normCoords] at hshort
    simp only [detailOf]
    rw [if_pos hshort]
  | multiLineString ls =>
    simp only [normCoords] at hshort
    simp only [detailOf]
    rw [if_pos hshort]

/-- Witness for C7 at the spec's example: a `LineString` with the single
coordinate pair `[2, 1]` produces no Detail entry. -/
theorem short_line_no_entry_witness :
    isLineFeature ⟨some lineTwoOne, none⟩ = true ∧
    (normCoords lineTwoOne).length < 2 ∧
    detailOf ⟨some lineTwoOne, none⟩ = none :=
  ⟨rfl, by decide, short_line_no_entry lineTwoOne none rfl (by decide)⟩

/-- C10: when a feature yields a Detail entry and its name property is
present but equal to the empty string, the entry's name is the fallback
literal `"Unnamed"` (the `||` fallback fires on any falsy name). -/
theorem empty_name_falls_back (f : Feature) (d : DetailItem)
    (hname : f.name = some "") (hd : detailOf f = some d) :
    d.name = "Unnamed" := by
  cases f with
  | mk geo nm =>
    obtain rfl : nm = some "" := hname
    cases geo with
    | none => simp [detailOf] at hd
    | some g =>
      cases g with
      | point c => simp [detailOf] at hd
      | polygon c => simp [detailOf] at hd
      | unknown t => simp [detailOf] at hd
      | lineString cs =>
        simp only [detailOf] at hd
        split at hd
        · exact absurd hd (by simp)
        · injection hd with h
          rw [← h]
          rfl
      | multiLineString ls =>
        simp only [detailOf] at hd
        split at hd
        · exact absurd hd (by simp)
        · injection hd with h
          rw [← h]
          rfl

/-- Witness for C10: a `LineString` feature named `""` whose single segment
is skipped (truncated pairs) yields the entry named `"Unnamed"`. -/
theorem empty_name_falls_back_witness :
    (⟨some (.lineString [[JVal.other], [JVal.other]]), some ""⟩ : Feature).name = some "" ∧
    detailOf ⟨some (.lineString [[JVal.other], [JVal.other]]), some ""⟩ =
      some ⟨"LineString", JNum.finite 0, "Unnamed"⟩ ∧
    (⟨"LineString", JNum.finite 0, "Unnamed"⟩ : DetailItem).name = "Unnamed" :=
  ⟨rfl, rfl,
    empty_name_falls_back ⟨some (.lineString [[JVal.other], [JVal.other]]), some ""⟩
      ⟨"LineString", JNum.finite 0, "Unnamed"⟩ rfl rfl⟩

theorem latRad_mem_Icc (lat : ℝ) (h1 : -90 ≤ lat) (h2 : lat ≤ 90) :
    lat * Real.pi / 180 ∈ Set.Icc (-(Real.pi / 2)) (Real.pi / 2) := by
  have hπ := Real.pi_pos
  constructor
  · nlinarith [mul_nonneg (by linarith : (0:ℝ) ≤ lat + 90) (le_of_lt Real.pi_pos)]
  · nlinarith [mul_nonneg (by linarith : (0:ℝ) ≤ 90 - lat) (le_of_lt Real.pi_pos)]

theorem haversineA_nonneg (lat1 lon1 lat2 lon2 : ℝ)
    (h1 : -90 ≤ lat1) (h2 : lat1 ≤ 90) (h3 : -90 ≤ lat2) (h4 : lat2 ≤ 90) :
    0 ≤ haversineA lat1 lon1 lat2 lon2 := by
  have hc1 : 0 ≤ Real.cos (lat1 * Real.pi / 180) :=
    Real.cos_nonneg_of_mem_Icc (latRad_mem_Icc lat1 h1 h2)
  have hc2 : 0 ≤ Real.cos (lat2 * Real.pi / 180) :=
    Real.cos_nonneg_of_mem_Icc (latRad_mem_Icc lat2 h3 h4)
  unfold haversineA
  nlinarith [mul_self_nonneg (Real.sin ((lat2 - lat1) * Real.pi / 180 / 2)),
    mul_self_nonneg (Real.sin ((lon2 - lon1) * Real.pi / 180 / 2)),
    mul_nonneg hc1 hc2]

theorem haversineA_le_one (lat1 lon1 lat2 lon2 : ℝ)
    (h1 : -90 ≤ lat1) (h2 : lat1 ≤ 90) (h3 : -90 ≤ lat2) (h4 : lat2 ≤ 90) :
    haversineA lat1 lon1 lat2 lon2 ≤ 1 := by
  set A := lat1 * Real.pi / 180 with hA
  set B := lat2 * Real.pi / 180 with hB
  have hc1 : 0 ≤ Real.cos A := Real.cos_nonneg_of_mem_Icc (latRad_mem_Icc lat1 h1 h2)
  have hc2 : 0 ≤ Real.cos B := Real.cos_nonneg_of_mem_Icc (latRad_mem_Icc lat2 h3 h4)
  have harg : (lat2 - lat1) * Real.pi / 180 / 2 = (B - A) / 2 := by
    rw [hA, hB]; ring
  have hsin2 : Real.sin ((lon2 - lon1) * Real.pi / 180 / 2) *
      Real.sin ((lon2 - lon1) * Real.pi / 180 / 2) ≤ 1 := by
    nlinarith [Real.neg_one_le_sin ((lon2 - lon1) * Real.pi / 180 / 2),
      Real.sin_le_one ((lon2 - lon1) * Real.pi / 180 / 2)]
  have hprod : Real.cos A * Real.cos B ≤ Real.cos ((B - A) / 2) * Real.cos ((B - A) / 2) := by
    have e1 : Real.cos A * Real.cos B = (Real.cos (A - B) + Real.cos (A + B)) / 2 := by
      rw [Real.cos_sub, Real.cos_add]; ring
    have e2 : Real.cos ((B - A) / 2) * Real.cos ((B - A) / 2) = (1 + Real.cos (B - A)) / 2 := by
      have h := Real.cos_sq ((B - A) / 2)
      rw [show 2 * ((B - A) / 2) = B - A by ring] at h
      rw [← pow_two]
      linarith
    have e3 : Real.cos (A - B) = Real.cos (B - A) := by
      rw [show A - B = -(B - A) by ring, Real.cos_neg]
    rw [e1, e2, e3]
    linarith [Real.cos_le_one (A + B)]
  have hpyth : Real.sin ((B - A) / 2) * Real.sin ((B - A) / 2) +
      Real.cos ((B - A) / 2) * Real.cos ((B - A) / 2) = 1 := by
    rw [← pow_two, ← pow_two]
    exact Real.sin_sq_add_cos_sq ((B - A) / 2)
  unfold haversineA
  rw [harg]
  nlinarith [mul_nonneg hc1 hc2, hsin2, hprod, hpyth,
    mul_self_nonneg (Real.sin ((lon2 - lon1) * Real.pi / 180 / 2))]

theorem haversineA_comm (lat1 lon1 lat2 lon2 : ℝ) :
    haversineA lat1 lon1 lat2 lon2 = haversineA lat2 lon2 lat1 lon1 := by
  unfold haversineA
  rw [show (lat1 - lat2) * Real.pi / 180 / 2 = -((lat2 - lat1) * Real.pi / 180 / 2) by ring,
    show (lon1 - lon2) * Real.pi / 180 / 2 = -((lon2 - lon1) * Real.pi / 180 / 2) by ring,
    Real.sin_neg, Real.sin_neg]
  ring

theorem atan2R_nonneg (y x : ℝ) (hy : 0 ≤ y) (hx : 0 ≤ x) : 0 ≤ atan2R y x := by
  unfold atan2R
  rcases lt_or_eq_of_le hx with hx' | hx'
  · rw [if_pos hx']
    rw [← Real.arctan_zero]
    exact Real.arctan_strictMono.monotone (div_nonneg hy (le_of_lt hx'))
  · rw [if_neg (by rw [← hx']; exact lt_irrefl 0), if_neg (by rw [← hx']; exact lt_irrefl 0)]
    rcases lt_or_eq_of_le hy with hy' | hy'
    · rw [if_pos hy']
      positivity
    · rw [if_neg (by rw [← hy']; exact lt_irrefl 0), if_neg (by rw [← hy']; exact lt_irrefl 0)]

theorem dist_self_eq_zero (lat lon : ℝ) : calculateDistance lat lon lat lon = 0 := by
  have ha : haversineA lat lon lat lon = 0 := by
    unfold haversineA
    simp
  rw [calculateDistance, ha]
  rw [show (1:ℝ) - 0 = 1 by ring, Real.sqrt_zero, Real.sqrt_one]
  rw [show atan2R 0 1 = Real.arctan (0 / 1) from if_pos one_pos]
  simp

theorem atan2R_abs_sin_cos (θ : ℝ) (h1 : -(Real.pi / 2) ≤ θ) (h2 : θ ≤ Real.pi / 2) :
    atan2R |Real.sin θ| (Real.cos θ) = |θ| := by
  have hcos : 0 ≤ Real.cos θ := Real.cos_nonneg_of_mem_Icc ⟨h1, h2⟩
  have habs : |θ| ≤ Real.pi / 2 := abs_le.mpr ⟨by linarith, h2⟩
  rcases lt_or_eq_of_le hcos with hpos | hzero
  · have hlt : |θ| < Real.pi / 2 := by
      rcases lt_or_eq_of_le habs with h | h
      · exact h
      · exfalso
        have hc0 : Real.cos |θ| = 0 := by rw [h, Real.cos_pi_div_two]
        rw [Real.cos_abs] at hc0
        rw [hc0] at hpos
        exact lt_irrefl 0 hpos
    unfold atan2R
    rw [if_pos hpos]
    have hsin : |Real.sin θ| = Real.sin |θ| := by
      rcases le_or_lt 0 θ with h | h
      · rw [abs_of_nonneg h,
          abs_of_nonneg (Real.sin_nonneg_of_nonneg_of_le_pi h (by linarith [Real.pi_pos]))]
      · rw [abs_of_neg h,
          abs_of_nonpos
            (Real.sin_nonpos_of_nonnpos_of_neg_pi_le (le_of_lt h) (by linarith [Real.pi_pos])),
          Real.sin_neg]
    have hcosabs : Real.cos θ = Real.cos |θ| := (Real.cos_abs θ).symm
    rw [hsin, hcosabs, ← Real.tan_eq_sin_div_cos]
    exact Real.arctan_tan (by linarith [abs_nonneg θ, Real.pi_pos]) hlt
  · have habs_eq : |θ| = Real.pi / 2 := by
      rcases lt_or_eq_of_le habs with h | h
      · exfalso
        have hc : 0 < Real.cos θ := by
          rw [← Real.cos_abs]
          exact Real.cos_pos_of_mem_Ioo ⟨by linarith [abs_nonneg θ, Real.pi_pos], h⟩
        rw [← hzero] at hc
        exact lt_irrefl 0 hc
      · exact h
    have hs : Real.sin θ ^ 2 = 1 := by
      have h := Real.sin_sq_add_cos_sq θ
      rw [← hzero] at h
      simpa using h
    have hsin1 : |Real.sin θ| = 1 := by
      rw [← Real.sqrt_sq_eq_abs, hs, Real.sqrt_one]
    unfold atan2R
    rw [← hzero]
    rw [if_neg (lt_irrefl 0), if_neg (lt_irrefl 0), hsin1, if_pos one_pos, habs_eq]

theorem dist_meridian (lat1 lat2 lon : ℝ)
    (h1 : -90 ≤ lat1) (h2 : lat1 ≤ 90) (h3 : -90 ≤ lat2) (h4 : lat2 ≤ 90) :
    calculateDistance lat1 lon lat2 lon = 6371 * (|lat2 - lat1| * Real.pi / 180) := by
  have hπ := Real.pi_pos
  have hθ1 : -(Real.pi / 2) ≤ (lat2 - lat1) * Real.pi / 180 / 2 := by
    nlinarith [mul_nonneg (by linarith : (0:ℝ) ≤ lat2 - lat1 + 180) hπ.le]
  have hθ2 : (lat2 - lat1) * Real.pi / 180 / 2 ≤ Real.pi / 2 := by
    nlinarith [mul_nonneg (by linarith : (0:ℝ) ≤ 180 - (lat2 - lat1)) hπ.le]
  have ha : haversineA lat1 lon lat2 lon =
      Real.sin ((lat2 - lat1) * Real.pi / 180 / 2) *
        Real.sin ((lat2 - lat1) * Real.pi / 180 / 2) := by
    unfold haversineA
    simp [sub_self]
  have hsqrt_a : Real.sqrt (haversineA lat1 lon lat2 lon) =
      |Real.sin ((lat2 - lat1) * Real.pi / 180 / 2)| := by
    rw [ha, Real.sqrt_mul_self_eq_abs]
  have h1a : 1 - haversineA lat1 lon lat2 lon =
      Real.cos ((lat2 - lat1) * Real.pi / 180 / 2) *
        Real.cos ((lat2 - lat1) * Real.pi / 180 / 2) := by
    rw [ha]
    nlinarith [Real.sin_sq_add_cos_sq ((lat2 - lat1) * Real.pi / 180 / 2)]
  have hsqrt_1a : Real.sqrt (1 - haversineA lat1 lon lat2 lon) =
      Real.cos ((lat2 - lat1) * Real.pi / 180 / 2) := by
    rw [h1a, Real.sqrt_mul_self_eq_abs,
      abs_of_nonneg (Real.cos_nonneg_of_mem_Icc ⟨hθ1, hθ2⟩)]
  rw [calculateDistance, hsqrt_a, hsqrt_1a, atan2R_abs_sin_cos _ hθ1 hθ2]
  rw [abs_div, abs_div, abs_mul, abs_of_pos hπ]
  rw [abs_of_pos (by norm_num : (0:ℝ) < 180), abs_of_pos (by norm_num : (0:ℝ) < 2)]
  ring

theorem JNum.sub_finite (a b : ℝ) : JNum.sub (.finite a) (.finite b) = .finite (a - b) := rfl

theorem JNum.add_finite (a b : ℝ) : JNum.add (.finite a) (.finite b) = .finite (a + b) := rfl

theorem JNum.mul_finite (a b : ℝ) : JNum.mul (.finite a) (.finite b) = .finite (a * b) := rfl

theorem JNum.sin_finite (a : ℝ) : JNum.sin (.finite a) = .finite (Real.sin a) := rfl

theorem JNum.cos_finite (a : ℝ) : JNum.cos (.finite a) = .finite (Real.cos a) := rfl

theorem JNum.atan2_finite (y x : ℝ) :
    JNum.atan2 (.finite y) (.finite x) = .finite (atan2R y x) := rfl

theorem JNum.div180 (a : ℝ) : JNum.div (.finite a) (.finite 180) = .finite (a / 180) := by
  rw [JNum.div.eq_def]
  norm_num

theorem JNum.div2 (a : ℝ) : JNum.div (.finite a) (.finite 2) = .finite (a / 2) := by
  rw [JNum.div.eq_def]
  norm_num

theorem JNum.sqrt_finite (a : ℝ) (h : 0 ≤ a) :
    JNum.sqrt (.finite a) = .finite (Real.sqrt a) := by
  simp only [JNum.sqrt]
  rw [if_neg (not_lt.mpr h)]

/-- On finite inputs whose haversine intermediate lies in `[0, 1]`, the
JavaScript-number evaluation of the Distance Engine produces the finite
real result (no `NaN` arises anywhere in the computation). -/
theorem calculateDistanceJS_finite (lat1 lon1 lat2 lon2 : ℝ)
    (ha0 : 0 ≤ haversineA lat1 lon1 lat2 lon2) (ha1 : haversineA lat1 lon1 lat2 lon2 ≤ 1) :
    calculateDistanceJS (.finite lat1) (.finite lon1) (.finite lat2) (.finite lon2) =
      .finite (calculateDistance lat1 lon1 lat2 lon2) := by
  have ha0' : (0:ℝ) ≤
      Real.sin ((lat2 - lat1) * Real.pi / 180 / 2) * Real.sin ((lat2 - lat1) * Real.pi / 180 / 2) +
        Real.cos (lat1 * Real.pi / 180) * Real.cos (lat2 * Real.pi / 180) *
          Real.sin ((lon2 - lon1) * Real.pi / 180 / 2) *
          Real.sin ((lon2 - lon1) * Real.pi / 180 / 2) := ha0
  have ha1' :
      Real.sin ((lat2 - lat1) * Real.pi / 180 / 2) * Real.sin ((lat2 - lat1) * Real.pi / 180 / 2) +
        Real.cos (lat1 * Real.pi / 180) * Real.cos (lat2 * Real.pi / 180) *
          Real.sin ((lon2 - lon1) * Real.pi / 180 / 2) *
          Real.sin ((lon2 - lon1) * Real.pi / 180 / 2) ≤ 1 := ha1
  rw [calculateDistanceJS]
  rw [JNum.sub_finite, JNum.mul_finite, JNum.div180,
    JNum.sub_finite, JNum.mul_finite, JNum.div180,
    JNum.div2, JNum.sin_finite, JNum.mul_finite,
    JNum.mul_finite, JNum.div180, JNum.cos_finite,
    JNum.mul_finite, JNum.div180, JNum.cos_finite,
    JNum.mul_finite, JNum.div2, JNum.sin_finite,
    JNum.mul_finite, JNum.mul_finite, JNum.add_finite]
  rw [JNum.sqrt_finite _ ha0', JNum.sub_finite,
    JNum.sqrt_finite _ (by linarith), JNum.atan2_finite, JNum.mul_finite, JNum.mul_finite]
  rfl

/-- C4: the Distance Engine returns 0 for identical points and is symmetric
under swapping its two argument points. -/
theorem distance_self_zero_and_symmetric (lat1 lon1 lat2 lon2 : ℝ) :
    calculateDistance lat1 lon1 lat1 lon1 = 0 ∧
    calculateDistance lat1 lon1 lat2 lon2 = calculateDistance lat2 lon2 lat1 lon1 := by
  refine ⟨dist_self_eq_zero lat1 lon1, ?_⟩
  rw [calculateDistance, calculateDistance, haversineA_comm]

/-- C5: for finite inputs with latitudes in `[-90, 90]` and longitudes in
`[-180, 180]`, the haversine intermediate `a` lies in `[0, 1]` (so both
square roots are of non-negative quantities), the Distance Engine's result
is non-negative, and the JavaScript-number evaluation returns exactly that
finite value — in particular it is never `NaN`. -/
theorem distance_nonneg_never_nan (lat1 lon1 lat2 lon2 : ℝ)
    (h1 : -90 ≤ lat1) (h2 : lat1 ≤ 90) (h3 : -90 ≤ lat2) (h4 : lat2 ≤ 90)
    (h5 : -180 ≤ lon1) (h6 : lon1 ≤ 180) (h7 : -180 ≤ lon2) (h8 : lon2 ≤ 180) :
    0 ≤ haversineA lat1 lon1 lat2 lon2 ∧ haversineA lat1 lon1 lat2 lon2 ≤ 1 ∧
    0 ≤ calculateDistance lat1 lon1 lat2 lon2 ∧
    calculateDistanceJS (.finite lat1) (.finite lon1) (.finite lat2) (.finite lon2) =
      .finite (calculateDistance lat1 lon1 lat2 lon2) := by
  have ha0 := haversineA_nonneg lat1 lon1 lat2 lon2 h1 h2 h3 h4
  have ha1 := haversineA_le_one lat1 lon1 lat2 lon2 h1 h2 h3 h4
  refine ⟨ha0, ha1, ?_, calculateDistanceJS_finite lat1 lon1 lat2 lon2 ha0 ha1⟩
  rw [calculateDistance]
  have h := atan2R_nonneg (Real.sqrt (haversineA lat1 lon1 lat2 lon2))
    (Real.sqrt (1 - haversineA lat1 lon1 lat2 lon2)) (Real.sqrt_nonneg _) (Real.sqrt_nonneg _)
  linarith

/-- Witness for C5 at a concrete in-range input. -/
theorem distance_nonneg_never_nan_witness :
    0 ≤ haversineA 10 20 30 40 ∧ haversineA 10 20 30 40 ≤ 1 ∧
    0 ≤ calculateDistance 10 20 30 40 ∧
    calculateDistanceJS (.finite 10) (.finite 20) (.finite 30) (.finite 40) =
      .finite (calculateDistance 10 20 30 40) :=
  distance_nonneg_never_nan 10 20 30 40 (by norm_num) (by norm_num) (by norm_num)
    (by norm_num) (by norm_num) (by norm_num) (by norm_num) (by norm_num)

/-- C6: with a fixed reference point, moving the second point strictly
farther along the same meridian (same longitude, strictly larger latitude
difference in magnitude, within the valid latitude range) strictly
increases the computed distance. -/
theorem meridian_monotone (lat1 lon lat2 lat3 : ℝ)
    (h1 : -90 ≤ lat1) (h2 : lat1 ≤ 90) (h3 : -90 ≤ lat2) (h4 : lat2 ≤ 90)
    (h5 : -90 ≤ lat3) (h6 : lat3 ≤ 90)
    (hfar : |lat2 - lat1| < |lat3 - lat1|) :
    calculateDistance lat1 lon lat2 lon < calculateDistance lat1 lon lat3 lon := by
  rw [dist_meridian lat1 lat2 lon h1 h2 h3 h4, dist_meridian lat1 lat3 lon h1 h2 h5 h6]
  have hπ := Real.pi_pos
  nlinarith [mul_pos (sub_pos.mpr hfar) hπ]

/-- Witness for C6 at a concrete input along the meridian `lon = 5`. -/
theorem meridian_monotone_witness :
    |(10:ℝ) - 0| < |(20:ℝ) - 0| ∧ calculateDistance 0 5 10 5 < calculateDistance 0 5 20 5 := by
  have habs : |(10:ℝ) - 0| < |(20:ℝ) - 0| := by
    rw [show (10:ℝ) - 0 = 10 by norm_num, show (20:ℝ) - 0 = 20 by norm_num,
      abs_of_nonneg (by norm_num : (0:ℝ) ≤ 10), abs_of_nonneg (by norm_num : (0:ℝ) ≤ 20)]
    norm_num
  exact ⟨habs, meridian_monotone 0 5 10 20 (by norm_num) (by norm_num) (by norm_num)
    (by norm_num) (by norm_num) (by norm_num) habs⟩

/-- C3: the Detail Builder flattens a `MultiLineString` exactly one level
into one sequence (including a connecting segment between consecutive
sub-lines) and sums distance over every consecutive pair; on the spec's
example the flattened sequence is `[[0,0],[0,1],[0,1],[0,2]]` and the
accumulated length equals the sum of the two one-degree-of-latitude
segment distances, i.e. `2·(6371·π/180)` (the connecting segment is the
zero-length `[0,1] → [0,1]`). -/
theorem mls_flatten_and_length :
    normCoords (.multiLineString mlsLines) =
      [[.num (.finite 0), .num (.finite 0)], [.num (.finite 0), .num (.finite 1)],
       [.num (.finite 0), .num (.finite 1)], [.num (.finite 0), .num (.finite 2)]] ∧
    showDetails [⟨some (.multiLineString mlsLines), none⟩] =
      [⟨"MultiLineString", .finite (calculateDistance 0 0 1 0 + calculateDistance 1 0 2 0),
        "Unnamed"⟩] ∧
    calculateDistance 0 0 1 0 + calculateDistance 1 0 2 0 = 2 * (6371 * (Real.pi / 180)) := by
  refine ⟨rfl, ?_, ?_⟩
  · have e1 : jdist [.num (.finite 0), .num (.finite 0)] [.num (.finite 0), .num (.finite 1)] =
        .finite (calculateDistance 0 0 1 0) := by
      show calculateDistanceJS (.finite 0) (.finite 0) (.finite 1) (.finite 0) =
        .finite (calculateDistance 0 0 1 0)
      exact calculateDistanceJS_finite 0 0 1 0
        (haversineA_nonneg 0 0 1 0 (by norm_num) (by norm_num) (by norm_num) (by norm_num))
        (haversineA_le_one 0 0 1 0 (by norm_num) (by norm_num) (by norm_num) (by norm_num))
    have e2 : jdist [.num (.finite 0), .num (.finite 1)] [.num (.finite 0), .num (.finite 1)] =
        .finite (calculateDistance 1 0 1 0) := by
      show calculateDistanceJS (.finite 1) (.finite 0) (.finite 1) (.finite 0) =
        .finite (calculateDistance 1 0 1 0)
      exact calculateDistanceJS_finite 1 0 1 0
        (haversineA_nonneg 1 0 1 0 (by norm_num) (by norm_num) (by norm_num) (by norm_num))
        (haversineA_le_one 1 0 1 0 (by norm_num) (by norm_num) (by norm_num) (by norm_num))
    have e3 : jdist [.num (.finite 0), .num (.finite 1)] [.num (.finite 0), .num (.finite 2)] =
        .finite (calculateDistance 1 0 2 0) := by
      show calculateDistanceJS (.finite 1) (.finite 0) (.finite 2) (.finite 0) =
        .finite (calculateDistance 1 0 2 0)
      exact calculateDistanceJS_finite 1 0 2 0
        (haversineA_nonneg 1 0 2 0 (by norm_num) (by norm_num) (by norm_num) (by norm_num))
        (haversineA_le_one 1 0 2 0 (by norm_num) (by norm_num) (by norm_num) (by norm_num))
    have e0 : showDetails [⟨some (.multiLineString mlsLines), none⟩] =
        [⟨"MultiLineString",
          JNum.add
            (JNum.add
              (JNum.add (.finite 0)
                (jdist [.num (.finite 0), .num (.finite 0)] [.num (.finite 0), .num (.finite 1)]))
              (jdist [.num (.finite 0), .num (.finite 1)] [.num (.finite 0), .num (.finite 1)]))
            (jdist [.num (.finite 0), .num (.finite 1)] [.num (.finite 0), .num (.finite 2)]),
          "Unnamed"⟩] := rfl
    rw [e0, e1, e2, e3, JNum.add_finite, JNum.add_finite, JNum.add_finite,
      dist_self_eq_zero 1 0]
    have harith : (0:ℝ) + calculateDistance 0 0 1 0 + 0 + calculateDistance 1 0 2 0 =
        calculateDistance 0 0 1 0 + calculateDistance 1 0 2 0 := by ring
    rw [harith]
  · rw [dist_meridian 0 1 0 (by norm_num) (by norm_num) (by norm_num) (by norm_num),
      dist_meridian 1 2 0 (by norm_num) (by norm_num) (by norm_num) (by norm_num)]
    rw [show (1:ℝ) - 0 = 1 by norm_num, show (2:ℝ) - 1 = 1 by norm_num, abs_one]
    ring
